import Mathlib

/-!
Shallow embedding of the javalocate JVM-locator program (src/main.rs).

Strings are modelled by Lean `String` (a wrapper around `List Char`), and
every Rust string operation used by the program is reproduced faithfully on
the character list.  Rust operations that can panic (`unwrap` on a failed
`parse::<i32>`, an out-of-bounds `Vec::get`, a failed properties read, a
missing default path) are modelled with `Option`/`Except`: a `none` /
`Except.error` result means the Rust program panics or exits.
-/

/-- Rust `str::parse::<i32>`: optional sign, one or more ASCII digits,
value within the i32 range; anything else is an error (`none`). -/
def parse_i32 (s : String) : Option Int :=
  let sgn : Int := if s.data.take 1 = ['-'] then -1 else 1
  let digits : List Char :=
    if s.data.take 1 = ['-'] ∨ s.data.take 1 = ['+'] then s.data.drop 1 else s.data
  if digits = [] then none
  else if digits.all Char.isDigit then
    let v : Int := sgn * ((digits.foldl (fun acc c => acc * 10 + (c.toNat - 48)) 0 : Nat) : Int)
    if -(2 ^ 31) ≤ v ∧ v ≤ 2 ^ 31 - 1 then some v else none
  else none

/-- Rust `strip_prefix("1.").unwrap_or(original)`: drop a leading "1." if present. -/
def stripLegacy (s : String) : String :=
  match s.data with
  | '1' :: '.' :: rest => String.mk rest
  | _ => s

/-- Whether the string starts with "1." (Rust `starts_with("1.")`). -/
def startsWithOneDot (s : String) : Bool :=
  s.data.take 2 = ['1', '.']

/-- Rust `replace("_", ".")` (single-character pattern, so a character map). -/
def replaceUnderscore (s : String) : String :=
  String.mk (s.data.map fun c => if c = '_' then '.' else c)

/-- Helper for `splitOnChar`, carrying the reversed current chunk. -/
def splitOnCharAux (sep : Char) : List Char → List Char → List String
  | [], acc => [String.mk acc.reverse]
  | c :: rest, acc =>
    if c = sep then String.mk acc.reverse :: splitOnCharAux sep rest []
    else splitOnCharAux sep rest (c :: acc)

/-- Rust `split(sep)` for a single-character pattern: empty input yields
one empty chunk, consecutive separators yield empty chunks. -/
def splitOnChar (sep : Char) (s : String) : List String :=
  splitOnCharAux sep s.data []

/-- Helper for `splitInclusiveDot`, carrying the reversed current chunk. -/
def splitInclusiveDotAux : List Char → List Char → List String
  | [], acc => if acc = [] then [] else [String.mk acc.reverse]
  | c :: rest, acc =>
    if c = '.' then String.mk (c :: acc).reverse :: splitInclusiveDotAux rest []
    else splitInclusiveDotAux rest (c :: acc)

/-- Rust `split_inclusive(".")`: chunks keep their trailing separator and an
empty final chunk is not produced (so the empty string yields no chunks). -/
def splitInclusiveDot (s : String) : List String :=
  splitInclusiveDotAux s.data []

/-- Rust `matches('.').count()`: number of dots in the string. -/
def dotCount (s : String) : Nat :=
  s.data.count '.'

/-- Rust `strip_suffix(".").unwrap_or(original)`: drop one trailing dot. -/
def stripTrailingDot (s : String) : String :=
  if s.data ≠ [] ∧ s.data.getLast? = some '.' then String.mk (s.data.dropLast) else s

/-- Rust `contains("+")`. -/
def containsPlus (s : String) : Bool :=
  s.data.contains '+'

/-- Rust `replace("+", "")`: remove every plus character. -/
def removePlus (s : String) : String :=
  String.mk (s.data.filter fun c => c ≠ '+')

/-- Rust `replace("\"", "")`: remove every double-quote character, as applied
to every value read from a release-descriptor properties file. -/
def stripQuotes (s : String) : String :=
  String.mk (s.data.filter fun c => c ≠ '"')

/-- The normalisation performed at the top of `compare_version_values`:
strip a leading "1.", turn underscores into dots, split on dots. -/
def normComponents (s : String) : List String :=
  splitOnChar '.' (replaceUnderscore (stripLegacy s))

/-- The component loop of `compare_version_values`: iterate over the first
list's components; each step parses both sides as i32 (`none` models the
panic of `unwrap` on a parse failure or an out-of-bounds index into the
second list) and the first numeric difference decides. -/
def cmpComponents : List String → List String → Option Ordering
  | [], _ => some Ordering.eq
  | s1 :: r1, l2 =>
    match l2 with
    | [] => none
    | s2 :: r2 =>
      match parse_i32 s1, parse_i32 s2 with
      | some v1, some v2 =>
        if v1 > v2 then some Ordering.gt
        else if v1 < v2 then some Ordering.lt
        else cmpComponents r1 r2
      | _, _ => none

/-- Rust `compare_version_values` (src/main.rs:498): normalise both version
strings and compare dot components left to right; `none` models a panic. -/
def compare_version_values (version1 version2 : String) : Option Ordering :=
  cmpComponents (normComponents version1) (normComponents version2)

example : compare_version_values "17.0.1" "17.0.1" = some Ordering.eq := by decide
example : compare_version_values "8.0.1" "17.0.1" = some Ordering.lt := by decide
example : compare_version_values "8.1.1" "8.0.1" = some Ordering.gt := by decide
example : compare_version_values "1.8" "8" = some Ordering.eq := by decide
example : compare_version_values "17" "17.0.1" = some Ordering.eq := by decide
example : compare_version_values "17.0.1" "17" = none := by decide

/-- One discovered JVM installation (struct `Jvm` in src/main.rs). -/
structure Jvm where
  version : String
  name : String
  architecture : String
  path : String
deriving DecidableEq, Repr

/-- Concatenation of the first `n` chunks: the loop in `get_compare_version`
appends `tmp_version.get(i).unwrap_or("")` for `i` in `0..n`, and an
out-of-range index contributes the empty string, so this is `take`. -/
def concatTake (l : List String) (n : Nat) : String :=
  String.join (l.take n)

/-- The truncation step of `get_compare_version`: split the version keeping
the dots, keep `count + 1` chunks, drop a trailing dot. -/
def truncateToCount (v : String) (count : Nat) : String :=
  stripTrailingDot (concatTake (splitInclusiveDot v) (count + 1))

/-- Rust `get_compare_version` (src/main.rs:528): truncate the JVM's version
to the query's dot granularity, first stripping a legacy "1." prefix from
the JVM version when the query is a single dotless component that does not
itself start with "1.". -/
def get_compare_version (jvm : Jvm) (version : String) : String :=
  let version_count := dotCount version
  let jvm_version :=
    if startsWithOneDot jvm.version = true ∧ dotCount version = 0 then
      if ¬ startsWithOneDot version = true then stripLegacy jvm.version
      else jvm.version
    else jvm.version
  truncateToCount jvm_version version_count

example : get_compare_version ⟨"17.0.2", "n", "a", "p"⟩ "8" = "17" := by decide
example : get_compare_version ⟨"17.0.2", "n", "a", "p"⟩ "17" = "17" := by decide
example : get_compare_version ⟨"17.0.2", "n", "a", "p"⟩ "17.1" = "17.0" := by decide
example : get_compare_version ⟨"17.0.2", "n", "a", "p"⟩ "17.0.1" = "17.0.2" := by decide
example : get_compare_version ⟨"17.0.2", "n", "a", "p"⟩ "17.0.1.1" = "17.0.2" := by decide
example : get_compare_version ⟨"1.8.0", "n", "a", "p"⟩ "8" = "8" := by decide

/-- Rust `filter_ver` (src/main.rs:477): no query always passes; a query
containing "+" is a minimum bound (reject when the truncated JVM version
compares Less than the sanitised query); otherwise an exact match of the
query against the truncated JVM version is required.  `none` models a panic
inside `compare_version_values`. -/
def filter_ver (ver : Option String) (jvm : Jvm) : Option Bool :=
  match ver with
  | none => some true
  | some version =>
    if containsPlus version = true then
      let sanitised_version := removePlus version
      let compare_jvm_version := get_compare_version jvm sanitised_version
      match compare_version_values compare_jvm_version sanitised_version with
      | none => none
      | some c => if c = Ordering.lt then some false else some true
    else
      let compare_jvm_version := get_compare_version jvm version
      match compare_version_values version compare_jvm_version with
      | none => none
      | some c => if ¬ c = Ordering.eq then some false else some true

example : filter_ver (some "17") ⟨"17.0.2", "n", "a", "p"⟩ = some true := by decide
example : filter_ver (some "11") ⟨"17.0.2", "n", "a", "p"⟩ = some false := by decide
example : filter_ver (some "11.0.2") ⟨"17.0.2", "n", "a", "p"⟩ = some false := by decide
example : filter_ver (some "11.0.2.1") ⟨"17.0.2", "n", "a", "p"⟩ = some false := by decide
example : filter_ver (some "11+") ⟨"11.0.2", "n", "a", "p"⟩ = some true := by decide
example : filter_ver (some "11.0+") ⟨"11.0.2", "n", "a", "p"⟩ = some true := by decide
example : filter_ver (some "11.0.1+") ⟨"11.0.2", "n", "a", "p"⟩ = some true := by decide
example : filter_ver (some "11.1+") ⟨"11.0.2", "n", "a", "p"⟩ = some false := by decide
example : filter_ver (some "11.0.3+") ⟨"11.0.2", "n", "a", "p"⟩ = some false := by decide
example : filter_ver (some "17+") ⟨"11.0.2", "n", "a", "p"⟩ = some false := by decide

/-- Rust `compare_boosting_architecture` (src/main.rs:464): compare versions
in reverse (descending); only on an exact version tie, prefer the entry
whose architecture equals the host's default architecture. -/
def compare_boosting_architecture (a b : Jvm) (default_arch : String) : Option Ordering :=
  match compare_version_values b.version a.version with
  | none => none
  | some version_test =>
    if version_test = Ordering.eq then
      if b.architecture ≠ default_arch ∧ a.architecture = default_arch then
        some Ordering.lt
      else if b.architecture = default_arch ∧ a.architecture ≠ default_arch then
        some Ordering.gt
      else some version_test
    else some version_test

/-- Stable insertion step for `sortByM`: move `x` past `y` exactly while the
comparator says Greater; a `none` comparison (panic) aborts the sort. -/
def insertByM (cmp : Jvm → Jvm → Option Ordering) (x : Jvm) : List Jvm → Option (List Jvm)
  | [] => some [x]
  | y :: ys =>
    match cmp x y with
    | none => none
    | some Ordering.gt => Option.map (fun l => y :: l) (insertByM cmp x ys)
    | some _ => some (x :: y :: ys)

/-- Rust `Vec::sort_by` is a stable sort; for a comparator that is a total
preorder its output is the unique stable ordering, modelled here by stable
insertion sort.  A comparator panic aborts the sort (`none`). -/
def sortByM (cmp : Jvm → Jvm → Option Ordering) : List Jvm → Option (List Jvm)
  | [] => some []
  | x :: xs =>
    match sortByM cmp xs with
    | none => none
    | some l => insertByM cmp x l

/-- The sorting pass at the end of `collate_jvms` (src/main.rs:324):
`jvms.sort_by(|a, b| compare_boosting_architecture(a, b, &os.architecture))`. -/
def sortJvms (jvms : List Jvm) (default_arch : String) : Option (List Jvm) :=
  sortByM (fun a b => compare_boosting_architecture a b default_arch) jvms

/-- Rust `str::replace(pat, rep)` for a non-empty pattern: replace every
non-overlapping occurrence left to right.  The `Nat` argument is fuel; each
step drops at least one character while consuming one unit, so fuel equal to
the list length makes the zero-fuel branch unreachable. -/
def replaceSubFuel (pat rep : List Char) : Nat → List Char → List Char
  | _, [] => []
  | 0, l => l
  | fuel + 1, c :: rest =>
    if pat ≠ [] ∧ pat.isPrefixOf (c :: rest) then
      rep ++ replaceSubFuel pat rep fuel (List.drop (pat.length - 1) rest)
    else
      c :: replaceSubFuel pat rep fuel rest

/-- Rust `str::replace` lifted to strings. -/
def replaceSub (pat rep s : String) : String :=
  String.mk (replaceSubFuel pat.data rep.data s.data.length s.data)

/-- The architecture rewriting applied in `process_release_file`
(src/main.rs:449) and the Linux folder-name fallback (src/main.rs:308):
`replace("amd64", "x86_64")` then `replace("i386", "x86")`. -/
def canonArch (s : String) : String :=
  replaceSub "i386" "x86" (replaceSub "amd64" "x86_64" s)

example : canonArch "amd64" = "x86_64" := by decide
example : canonArch "i386" = "x86" := by decide
example : canonArch "i586" = "i586" := by decide
example : canonArch "arm64" = "arm64" := by decide
example : canonArch "aarch64" = "aarch64" := by decide

/-- HashMap-style lookup of a key in a properties list (java_properties
`read` result); first binding wins. -/
def lookupProp (props : List (String × String)) (key : String) : Option String :=
  match props with
  | [] => none
  | (k, v) :: rest => if k = key then some v else lookupProp rest key

/-- Rust `process_release_file` (src/main.rs:444), given the parsed
properties of a release file: quote-stripped JAVA_VERSION and OS_ARCH, the
architecture rewritten by `canonArch`, the name "IMPLEMENTOR - version". -/
def process_release_file (jvm_path : String) (props : List (String × String)) : Jvm :=
  let version := stripQuotes ((lookupProp props "JAVA_VERSION").getD "")
  let architecture := canonArch (stripQuotes ((lookupProp props "OS_ARCH").getD ""))
  let implementor := stripQuotes ((lookupProp props "IMPLEMENTOR").getD "")
  let name := implementor ++ " - " ++ version
  { version := version, architecture := architecture, name := name, path := jvm_path }

/-- How the run ends when the Linux locator cannot proceed:
`unavailableExit` is `std::process::exit(exitcode::UNAVAILABLE)`, `crash` is
a Rust panic (`unwrap` of a `None`/`Err`). -/
inductive ScanErr where
  | unavailableExit
  | crash
deriving DecidableEq, Repr

/-- The static Linux distribution-id to default-JVM-root table
(src/main.rs:259). -/
def dirLookup (name : String) : Option String :=
  List.lookup name
    [("ubuntu", "/usr/lib/jvm"), ("debian", "/usr/lib/jvm"), ("rhel", "/usr/lib/jvm"),
     ("centos", "/usr/lib/jvm"), ("fedora", "/usr/lib/jvm")]

/-- The path-resolution head of the Linux `collate_jvms` (src/main.rs:266):
exit Unavailable when the distribution is unknown and no extra paths are
configured; otherwise append `path.unwrap()` to the configured paths — an
`unwrap` that panics whenever the distribution is unknown, configured extra
paths or not. -/
def resolveSearchPaths (os_name : String) (cfg_paths : List String) : Except ScanErr (List String) :=
  match dirLookup os_name with
  | none =>
    if cfg_paths = [] then Except.error ScanErr.unavailableExit
    else Except.error ScanErr.crash
  | some path =>
    if dirLookup os_name = none ∧ cfg_paths = [] then Except.error ScanErr.unavailableExit
    else Except.ok (cfg_paths ++ [path])

example : resolveSearchPaths "ubuntu" [] = Except.ok ["/usr/lib/jvm"] := rfl
example : resolveSearchPaths "arch" [] = Except.error ScanErr.unavailableExit := rfl
example : resolveSearchPaths "arch" ["/opt/jvms"] = Except.error ScanErr.crash := rfl

/-- One candidate entry of a scanned Linux root directory.  `releaseProps`
models the file `<dir>/release`: `none` when `File::open` fails (no file),
`some none` when the file opens but the java_properties read fails
(`read(...).unwrap()` panics), `some (some props)` when it parses. -/
structure DirEntry where
  name : String
  path : String
  isDir : Bool
  isLink : Bool
  releaseProps : Option (Option (List (String × String)))
deriving DecidableEq, Repr

/-- The per-candidate body of the Linux `collate_jvms` loop
(src/main.rs:280): non-directories and symlinks yield nothing; a readable
release file yields a Jvm from its properties (a failed properties read
panics); otherwise the directory name is parsed against the hyphenated
fallback convention, skipping names with fewer than 3 segments or whose
second segment is not "java" — and panicking on `parts.get(3).unwrap()`
when a matching name has no fourth segment. -/
def processEntry (e : DirEntry) : Except ScanErr (Option Jvm) :=
  if e.isDir = true ∧ e.isLink = false then
    match e.releaseProps with
    | some (some props) =>
      let version := stripQuotes ((lookupProp props "JAVA_VERSION").getD "")
      let architecture := stripQuotes ((lookupProp props "OS_ARCH").getD "")
      Except.ok (some { version := version, architecture := architecture,
                        name := e.name, path := e.path })
    | some none => Except.error ScanErr.crash
    | none =>
      let parts := splitOnChar '-' e.name
      if parts.length < 3 ∨ ¬ parts.get? 1 = some "java" then Except.ok none
      else
        match parts.get? 3 with
        | none => Except.error ScanErr.crash
        | some part3 =>
          let version := (parts.get? 1).getD ""
          let architecture := canonArch part3
          Except.ok (some { version := version, architecture := architecture,
                            name := e.name, path := e.path })
  else Except.ok none

/-- The Linux `collate_jvms` scan over the entries of one root directory:
each entry's outcome is appended in order, and a panic in any entry aborts
the whole scan. -/
def scanEntries : List DirEntry → Except ScanErr (List Jvm)
  | [] => Except.ok []
  | e :: rest =>
    match processEntry e with
    | Except.error err => Except.error err
    | Except.ok j =>
      match scanEntries rest with
      | Except.error err => Except.error err
      | Except.ok js => Except.ok (j.toList ++ js)

/-- A version string is valid when every normalised dot component parses as
an i32, which is exactly when `compare_version_values` cannot panic on it
while it is still reading components. -/
def validVersion (s : String) : Prop :=
  ∀ c ∈ normComponents s, (parse_i32 c).isSome = true

instance (s : String) : Decidable (validVersion s) := by
  unfold validVersion
  infer_instance

/-- Component comparison of equally long lists is antisymmetric: swapping
the arguments swaps the resulting ordering, and a panic stays a panic. -/
theorem cmpComponents_swap (l1 l2 : List String) (h : l1.length = l2.length) :
    cmpComponents l1 l2 = Option.map Ordering.swap (cmpComponents l2 l1) := by
  induction l1 generalizing l2 with
  | nil =>
    cases l2 with
    | nil => rfl
    | cons s r => simp at h
  | cons s1 r1 ih =>
    cases l2 with
    | nil => simp at h
    | cons s2 r2 =>
      simp only [cmpComponents]
      cases h1 : parse_i32 s1 <;> cases h2 : parse_i32 s2 <;> simp only []
      · rfl
      · rfl
      · rfl
      · rename_i v1 v2
        rcases lt_trichotomy v1 v2 with hlt | heq | hgt
        · simp [hlt, not_lt.mpr (le_of_lt hlt), lt_irrefl, Ordering.swap]
        · subst heq
          simp only [lt_irrefl, if_false, gt_iff_lt]
          exact ih r2 (by simpa using h)
        · simp [hgt, not_lt.mpr (le_of_lt hgt), lt_irrefl, Ordering.swap]

/-- Component comparison of a valid list against itself yields Equal. -/
theorem cmpComponents_refl (l : List String) (h : ∀ c ∈ l, (parse_i32 c).isSome = true) :
    cmpComponents l l = some Ordering.eq := by
  induction l with
  | nil => rfl
  | cons s r ih =>
    obtain ⟨v, hv⟩ := Option.isSome_iff_exists.mp (h s (by simp))
    simp only [cmpComponents, hv, gt_iff_lt, lt_irrefl, if_false]
    exact ih fun c hc => h c (by simp [hc])

/-- Claim C1 (amended).  As written, the inverse law fails for version
strings of unequal granularity (`compare_version_values "17" "17.0.1"` is
Equal but the swapped call panics); it does hold whenever the two normalised
component lists are equally long, and reflexivity holds for every valid
version string. -/
theorem compare_version_values_swap_refl :
    (∀ a b : String, (normComponents a).length = (normComponents b).length →
      compare_version_values a b = Option.map Ordering.swap (compare_version_values b a)) ∧
    (∀ a : String, validVersion a → compare_version_values a a = some Ordering.eq) := by
  constructor
  · intro a b h
    exact cmpComponents_swap _ _ h
  · intro a h
    exact cmpComponents_refl _ h

/-- Witness for Claim C1: the amended theorem applied at two concrete
version strings of equal granularity and at one concrete valid string. -/
theorem compare_version_values_swap_refl_witness :
    compare_version_values "17.0" "11.2" =
      Option.map Ordering.swap (compare_version_values "11.2" "17.0") ∧
    compare_version_values "17.0.1" "17.0.1" = some Ordering.eq :=
  ⟨compare_version_values_swap_refl.1 "17.0" "11.2" (by decide),
   compare_version_values_swap_refl.2 "17.0.1" (by decide)⟩

/-- Claim C1 counterexample: for the valid version strings "17" and
"17.0.1" the comparison is not the inverse of its swap — the forward call
returns Equal while the swapped call panics on an out-of-bounds component
index, so the claimed inverse law fails as stated. -/
theorem compare_version_values_not_inverse :
    validVersion "17" ∧ validVersion "17.0.1" ∧
    ¬ compare_version_values "17" "17.0.1" =
        Option.map Ordering.swap (compare_version_values "17.0.1" "17") := by
  refine ⟨by decide, by decide, ?_⟩
  decide

/-- Claim C4: the legacy forms "1.8" and "1.8.0_292" compare Equal to the
modern forms "8" and "8.0.292": the leading "1." is stripped and the
underscore suffix becomes an extra dot component before comparing. -/
theorem compare_version_values_legacy_modern :
    compare_version_values "1.8" "8" = some Ordering.eq ∧
    compare_version_values "1.8.0_292" "8.0.292" = some Ordering.eq := by
  constructor <;> decide

/-- When the first component list extends to the second by appending a tail
and every first-list component parses, the component loop returns Equal
without ever looking at the tail. -/
theorem cmpComponents_append_eq (l1 : List String)
    (h : ∀ c ∈ l1, (parse_i32 c).isSome = true) (t : List String) :
    cmpComponents l1 (l1 ++ t) = some Ordering.eq := by
  induction l1 with
  | nil => rfl
  | cons s r ih =>
    obtain ⟨v, hv⟩ := Option.isSome_iff_exists.mp (h s (by simp))
    simp only [List.cons_append, cmpComponents, hv, gt_iff_lt, lt_irrefl, if_false]
    exact ih fun c hc => h c (by simp [hc])

/-- Claim C10: `compare_version_values` inspects only as many components as
its first argument has after normalisation, so whenever the normalised
components of the first argument form a leading segment of the second's and
all of them parse, the result is Equal despite extra trailing components. -/
theorem compare_version_values_of_leading_segment (a b : String)
    (hseg : ∃ t, normComponents a ++ t = normComponents b)
    (hval : validVersion a) :
    compare_version_values a b = some Ordering.eq := by
  obtain ⟨t, ht⟩ := hseg
  unfold compare_version_values
  rw [← ht]
  exact cmpComponents_append_eq _ hval t

/-- Witness for Claim C10: "17" against "17.0.1" yields Equal. -/
theorem compare_version_values_of_leading_segment_witness :
    compare_version_values "17" "17.0.1" = some Ordering.eq :=
  compare_version_values_of_leading_segment "17" "17.0.1" ⟨["0", "1"], by decide⟩ (by decide)

/-- Claim C2: an exact-match query (no "+") truncates the installed version
to the query's granularity and requires the comparison to be Equal; for an
installed "17.0.2" the query "17" matches while "17.1" and "11.0.2.1" do
not, whatever the other Jvm fields are. -/
theorem filter_ver_exact_match :
    (∀ (q : String) (jvm : Jvm), containsPlus q = false →
      filter_ver (some q) jvm =
        Option.map (fun c => decide (c = Ordering.eq))
          (compare_version_values q (get_compare_version jvm q))) ∧
    (∀ n a p : String,
      filter_ver (some "17") ⟨"17.0.2", n, a, p⟩ = some true ∧
      filter_ver (some "17.1") ⟨"17.0.2", n, a, p⟩ = some false ∧
      filter_ver (some "11.0.2.1") ⟨"17.0.2", n, a, p⟩ = some false) := by
  constructor
  · intro q jvm h
    simp only [filter_ver, h, Bool.false_eq_true, if_false]
    cases hc : compare_version_values q (get_compare_version jvm q) with
    | none => rfl
    | some c => cases c <;> rfl
  · intro n a p
    exact ⟨rfl, rfl, rfl⟩

/-- Witness for Claim C2: both parts applied at the concrete installed
version "17.0.2" and query "17". -/
theorem filter_ver_exact_match_witness :
    filter_ver (some "17") ⟨"17.0.2", "n", "a", "p"⟩ =
      Option.map (fun c => decide (c = Ordering.eq))
        (compare_version_values "17" (get_compare_version ⟨"17.0.2", "n", "a", "p"⟩ "17")) ∧
    filter_ver (some "17") ⟨"17.0.2", "n", "a", "p"⟩ = some true :=
  ⟨filter_ver_exact_match.1 "17" ⟨"17.0.2", "n", "a", "p"⟩ (by decide),
   (filter_ver_exact_match.2 "n" "a" "p").1⟩

/-- Claim C3: a minimum-bound query (ending in "+") strips the plus,
truncates the installed version to the query's granularity and accepts
exactly when the truncated version does not compare Less than the query;
for an installed "11.0.2" the query "11+" matches while "11.1+", "11.0.3+"
and "17+" do not, whatever the other Jvm fields are. -/
theorem filter_ver_minimum_bound :
    (∀ (q : String) (jvm : Jvm), containsPlus q = true →
      filter_ver (some q) jvm =
        Option.map (fun c => decide (¬ c = Ordering.lt))
          (compare_version_values (get_compare_version jvm (removePlus q)) (removePlus q))) ∧
    (∀ n a p : String,
      filter_ver (some "11+") ⟨"11.0.2", n, a, p⟩ = some true ∧
      filter_ver (some "11.1+") ⟨"11.0.2", n, a, p⟩ = some false ∧
      filter_ver (some "11.0.3+") ⟨"11.0.2", n, a, p⟩ = some false ∧
      filter_ver (some "17+") ⟨"11.0.2", n, a, p⟩ = some false) := by
  constructor
  · intro q jvm h
    simp only [filter_ver, h, if_true]
    cases hc : compare_version_values (get_compare_version jvm (removePlus q)) (removePlus q) with
    | none => rfl
    | some c => cases c <;> rfl
  · intro n a p
    exact ⟨rfl, rfl, rfl, rfl⟩

/-- Witness for Claim C3: both parts applied at the concrete installed
version "11.0.2" and query "11+". -/
theorem filter_ver_minimum_bound_witness :
    filter_ver (some "11+") ⟨"11.0.2", "n", "a", "p"⟩ =
      Option.map (fun c => decide (¬ c = Ordering.lt))
        (compare_version_values
          (get_compare_version ⟨"11.0.2", "n", "a", "p"⟩ (removePlus "11+"))
          (removePlus "11+")) ∧
    filter_ver (some "11+") ⟨"11.0.2", "n", "a", "p"⟩ = some true :=
  ⟨filter_ver_minimum_bound.1 "11+" ⟨"11.0.2", "n", "a", "p"⟩ (by decide),
   (filter_ver_minimum_bound.2 "n" "a" "p").1⟩

/-- The four installations of the repository's sorting test
(src/main.rs:675): 17.0.1/x86_64, 11.0.2/aarch64, 11.0.2/x86_64, 8/x86_64. -/
def jvmTemurin11aarch : Jvm :=
  ⟨"11.0.2", "Eclipse Temurin 11", "aarch64",
   "/Library/Java/JavaVirtualMachines/temurin-11-aarch64.jdk"⟩

/-- The x86_64 build of version 11.0.2 from the sorting test. -/
def jvmTemurin11x86 : Jvm :=
  ⟨"11.0.2", "Eclipse Temurin 11", "x86_64",
   "/Library/Java/JavaVirtualMachines/temurin-11-x86_64.jdk"⟩

/-- The x86_64 build of version 17.0.1 from the sorting test. -/
def jvmTemurin17x86 : Jvm :=
  ⟨"17.0.1", "Eclipse Temurin 17", "x86_64",
   "/Library/Java/JavaVirtualMachines/temurin-17-x86_64.jdk"⟩

/-- The x86_64 build of version 8 from the sorting test. -/
def jvmOpenjdk8x86 : Jvm :=
  ⟨"8", "Adopt OpenJDK 8", "x86_64",
   "/Library/Java/JavaVirtualMachines/java-8-openjdk-amd64"⟩

/-- Claim C5: the comparator's primary key is the version comparison with
the arguments reversed (descending); whenever that comparison is defined
and not Equal the architecture plays no role, and on an exact Equal the
natively matching architecture is preferred.  Sorting the test's four
installations gives the claimed order for native arch aarch64, and with
native arch x86_64 only the two 11.0.2 entries swap. -/
theorem compare_boosting_architecture_spec :
    (∀ (a b : Jvm) (arch : String) (vt : Ordering),
      compare_version_values b.version a.version = some vt → ¬ vt = Ordering.eq →
      compare_boosting_architecture a b arch = some vt) ∧
    (∀ (a b : Jvm) (arch : String),
      compare_version_values b.version a.version = some Ordering.eq →
      compare_boosting_architecture a b arch =
        some (if b.architecture ≠ arch ∧ a.architecture = arch then Ordering.lt
          else if b.architecture = arch ∧ a.architecture ≠ arch then Ordering.gt
          else Ordering.eq)) ∧
    sortJvms [jvmTemurin11aarch, jvmTemurin11x86, jvmTemurin17x86, jvmOpenjdk8x86] "aarch64" =
      some [jvmTemurin17x86, jvmTemurin11aarch, jvmTemurin11x86, jvmOpenjdk8x86] ∧
    sortJvms [jvmTemurin11aarch, jvmTemurin11x86, jvmTemurin17x86, jvmOpenjdk8x86] "x86_64" =
      some [jvmTemurin17x86, jvmTemurin11x86, jvmTemurin11aarch, jvmOpenjdk8x86] := by
  refine ⟨?_, ?_, rfl, rfl⟩
  · intro a b arch vt hv hne
    simp [compare_boosting_architecture, hv, hne]
  · intro a b arch hv
    simp only [compare_boosting_architecture, hv, if_true]
    by_cases h1 : b.architecture ≠ arch ∧ a.architecture = arch
    · simp [h1]
    · by_cases h2 : b.architecture = arch ∧ a.architecture ≠ arch
      · simp [h1, h2]
      · simp [h1, h2]

/-- Witness for Claim C5: the comparator applied at concrete pairs — a
genuine version difference (8 versus 17.0.1) ignores the architectures, and
an exact tie (the two 11.0.2 builds) is broken by the native aarch64. -/
theorem compare_boosting_architecture_spec_witness :
    compare_boosting_architecture jvmOpenjdk8x86 jvmTemurin17x86 "x86_64" = some Ordering.gt ∧
    compare_boosting_architecture jvmTemurin11aarch jvmTemurin11x86 "aarch64" = some Ordering.lt := by
  constructor
  · exact compare_boosting_architecture_spec.1 jvmOpenjdk8x86 jvmTemurin17x86 "x86_64"
      Ordering.gt (by decide) (by decide)
  · have h := compare_boosting_architecture_spec.2.1 jvmTemurin11aarch jvmTemurin11x86
      "aarch64" (by decide)
    simpa using h

/-- A string with no dot cannot start with "1.". -/
theorem startsWithOneDot_eq_false_of_no_dot (q : String) (h : dotCount q = 0) :
    startsWithOneDot q = false := by
  unfold startsWithOneDot
  rw [decide_eq_false_iff_not]
  intro htake
  have hmem : '.' ∈ q.data := List.take_subset 2 q.data (by rw [htake]; simp)
  have := List.count_pos_iff.mpr hmem
  unfold dotCount at h
  omega

/-- Claim C6 (amended).  The "1." prefix is stripped from a legacy-form JVM
version only when the query is a single dotless component (which then never
itself starts with "1."); the truncation is then applied to the stripped
version at granularity one, so installed "1.8.0" queried as "8" truncates
to "8".  Queries that contain a dot never trigger the strip, even when they
do not use the "1." prefix. -/
theorem get_compare_version_strips_legacy (jvm : Jvm) (q : String)
    (hl : startsWithOneDot jvm.version = true) (hq : dotCount q = 0) :
    get_compare_version jvm q = truncateToCount (stripLegacy jvm.version) 0 := by
  have hq1 : startsWithOneDot q = false := startsWithOneDot_eq_false_of_no_dot q hq
  simp [get_compare_version, hl, hq, hq1]

/-- Witness for Claim C6: installed "1.8.0" queried as "8" truncates to
"8", not "1". -/
theorem get_compare_version_strips_legacy_witness :
    get_compare_version ⟨"1.8.0", "n", "a", "p"⟩ "8" = "8" := by
  have h := get_compare_version_strips_legacy ⟨"1.8.0", "n", "a", "p"⟩ "8" (by decide) (by decide)
  rw [h]
  decide

/-- Claim C6 counterexample: for the legacy installed version "1.8.0" and
the dotted query "8.0" — a query that does not use the "1." prefix — the
code does not strip the prefix: it truncates "1.8.0" itself to "1.8",
whereas stripping first (as the claim requires for every non-"1." query)
would give "8.0". -/
theorem get_compare_version_no_strip_for_dotted :
    get_compare_version ⟨"1.8.0", "n", "a", "p"⟩ "8.0" = "1.8" ∧
    truncateToCount (stripLegacy "1.8.0") (dotCount "8.0") = "8.0" ∧
    ¬ ("1.8" : String) = "8.0" := by
  refine ⟨by decide, by decide, by decide⟩

/-- Claim C7: evaluation of the Linux path-resolution head.  An unknown
distribution with no extra paths exits Unavailable, a known distribution
appends the default root after the extra paths — but an unknown
distribution WITH configured extra paths panics on `path.unwrap()` instead
of proceeding to scan the extra paths, contradicting the claim. -/
theorem resolveSearchPaths_eval :
    resolveSearchPaths "arch" [] = Except.error ScanErr.unavailableExit ∧
    resolveSearchPaths "ubuntu" ["/opt/jvms"] = Except.ok ["/opt/jvms", "/usr/lib/jvm"] ∧
    resolveSearchPaths "arch" ["/opt/jvms"] = Except.error ScanErr.crash :=
  ⟨rfl, rfl, rfl⟩

/-- Claim C8 (amended).  A candidate directory with no release file whose
name fails the fallback convention (fewer than three hyphen segments, or a
second segment other than "java") is skipped and the scan of the remaining
siblings continues unchanged; but a release file that opens and fails
properties parsing panics and aborts the whole scan. -/
theorem scanEntries_skip_and_crash :
    (∀ (e : DirEntry) (rest : List DirEntry),
      e.isDir = true → e.isLink = false → e.releaseProps = none →
      ((splitOnChar '-' e.name).length < 3 ∨ ¬ (splitOnChar '-' e.name).get? 1 = some "java") →
      scanEntries (e :: rest) = scanEntries rest) ∧
    (∀ (e : DirEntry) (rest : List DirEntry),
      e.isDir = true → e.isLink = false → e.releaseProps = some none →
      scanEntries (e :: rest) = Except.error ScanErr.crash) := by
  constructor
  · intro e rest hd hl hr hn
    have hpe : processEntry e = Except.ok none := by
      simp only [processEntry, hd, hl, hr]
      rw [if_pos hn]
      simp
    simp only [scanEntries, hpe]
    cases scanEntries rest <;> simp
  · intro e rest hd hl hr
    have hpe : processEntry e = Except.error ScanErr.crash := by
      simp only [processEntry, hd, hl, hr]
      simp
    simp only [scanEntries, hpe]

/-- Witness for Claim C8: a directory named "openjdk" (one segment, no
release file) is skipped, leaving the scan of its sibling unchanged, while
a directory whose release file fails to parse aborts the scan. -/
theorem scanEntries_skip_and_crash_witness :
    scanEntries [⟨"openjdk", "/usr/lib/jvm/openjdk", true, false, none⟩,
        ⟨"good", "/usr/lib/jvm/good", true, false,
         some (some [("JAVA_VERSION", "17.0.2"), ("OS_ARCH", "x86_64")])⟩] =
      scanEntries [⟨"good", "/usr/lib/jvm/good", true, false,
        some (some [("JAVA_VERSION", "17.0.2"), ("OS_ARCH", "x86_64")])⟩] ∧
    scanEntries [⟨"broken", "/usr/lib/jvm/broken", true, false, some none⟩] =
      Except.error ScanErr.crash := by
  constructor
  · exact scanEntries_skip_and_crash.1
      ⟨"openjdk", "/usr/lib/jvm/openjdk", true, false, none⟩ _ rfl rfl rfl (by decide)
  · exact scanEntries_skip_and_crash.2
      ⟨"broken", "/usr/lib/jvm/broken", true, false, some none⟩ [] rfl rfl rfl

/-- Claim C8 counterexample: a candidate whose release file opens but fails
the java_properties parse makes the whole scan abort with a panic — the
sibling entry, a perfectly good installation, is never reached — refuting
the claim that unparseable descriptor contents are skipped and that errors
never abort the scan. -/
theorem scanEntries_aborts_on_bad_parse :
    scanEntries [⟨"temurin-17", "/usr/lib/jvm/temurin-17", true, false, some none⟩,
        ⟨"good", "/usr/lib/jvm/good", true, false,
         some (some [("JAVA_VERSION", "17.0.2"), ("OS_ARCH", "x86_64")])⟩] =
      Except.error ScanErr.crash := rfl

/-- Claim C9 counterexample: the Windows release-file reader leaves the
OS_ARCH token "i586" unchanged — it is not canonicalized to "x86" as the
claim states for every Jvm constructed from a release descriptor. -/
theorem process_release_file_keeps_i586 :
    (process_release_file "/opt/jdk"
        [("JAVA_VERSION", "17.0.2"), ("OS_ARCH", "i586"), ("IMPLEMENTOR", "Vendor")]).architecture
      = "i586" ∧ ¬ ("i586" : String) = "x86" := by
  refine ⟨by decide, by decide⟩

/-- Claim C9 (amended).  Architecture rewriting at Jvm ingestion happens
only in the Windows release-file reader and the Linux folder-name fallback,
and rewrites exactly amd64 to x86_64 and i386 to x86; i586 and i686 are
left as they are, arm64 is kept distinct from aarch64, and the Linux
release-descriptor path stores the raw OS_ARCH token without any
canonicalization. -/
theorem architecture_canonicalization :
    canonArch "amd64" = "x86_64" ∧ canonArch "i386" = "x86" ∧
    canonArch "i586" = "i586" ∧ canonArch "i686" = "i686" ∧
    canonArch "arm64" = "arm64" ∧ canonArch "aarch64" = "aarch64" ∧
    (process_release_file "/opt/jdk"
        [("JAVA_VERSION", "17.0.2"), ("OS_ARCH", "amd64"), ("IMPLEMENTOR", "Vendor")]).architecture
      = "x86_64" ∧
    processEntry ⟨"good", "/usr/lib/jvm/good", true, false,
        some (some [("JAVA_VERSION", "17.0.2"), ("OS_ARCH", "amd64")])⟩ =
      Except.ok (some ⟨"17.0.2", "good", "amd64", "/usr/lib/jvm/good"⟩) := by
  refine ⟨by decide, by decide, by decide, by decide, by decide, by decide, by decide, rfl⟩
